import Mathlib

/-!
Verification of the cluster-monitor coordination core (Monitor.cc, MMonSync.h)
against its natural-language specification.

The C++ sources are shallowly embedded: machine integers become `Nat` with
explicit bounds where overflow matters, buffers become `List Nat` byte lists,
maps and sets become lists or `Finset`, and each handler becomes a pure Lean
function mirroring the branch structure of the source.  Assertions in the
source (`assert(...)`) are modelled either as step preconditions (for the
transition system) or as explicit guard results.
-/

namespace CephMon

/-! ## MMonSync.h: sync message type

Embeds the wire-message class `MMonSync` from src/messages/MMonSync.h:
the op enumeration (lines 27-69), the flag constants (lines 74-78),
`get_opname` (lines 86-97), and `encode_payload` / `decode_payload`
(lines 157-181).  A `bufferlist` is a byte list; `::encode` of a fixed-width
integer appends its little-endian bytes, `::encode` of a string or bufferlist
appends a 32-bit length followed by the raw bytes. -/

namespace MMonSync

def OP_START : Nat := 1
def OP_START_REPLY : Nat := 2
def OP_HEARTBEAT : Nat := 3
def OP_HEARTBEAT_REPLY : Nat := 4
def OP_FINISH : Nat := 5
def OP_START_CHUNKS : Nat := 6
def OP_CHUNK : Nat := 7
def OP_CHUNK_REPLY : Nat := 8

def FLAG_LAST : Nat := 1
def FLAG_RETRY : Nat := 2

/-- `MMonSync::get_opname` (MMonSync.h:86-97).  The C++ switch has cases for
`OP_START`, `OP_START_REPLY`, `OP_HEARTBEAT`, `OP_FINISH`, `OP_START_CHUNKS`,
`OP_CHUNK` and `OP_CHUNK_REPLY`; every other value (including
`OP_HEARTBEAT_REPLY`, which has no case) falls into the default branch, whose
`assert("unknown op type")` is a tautology on a non-null string literal and
therefore never fires, so the function returns the null pointer, modelled as
`Option.none`. -/
def get_opname (op : Nat) : Option String :=
  if op = OP_START then some "start"
  else if op = OP_START_REPLY then some "start_reply"
  else if op = OP_HEARTBEAT then some "heartbeat"
  else if op = OP_FINISH then some "finish"
  else if op = OP_START_CHUNKS then some "start_chunks"
  else if op = OP_CHUNK then some "chunk"
  else if op = OP_CHUNK_REPLY then some "chunk_reply"
  else none

/-- Little-endian encoding of `n` into `w` bytes, as ceph raw-copies
fixed-width integers into a bufferlist. -/
def encLE : Nat → Nat → List Nat
  | 0, _ => []
  | w + 1, n => n % 256 :: encLE w (n / 256)

/-- Little-endian decoding of `w` bytes off the front of a byte list. -/
def decLE : Nat → List Nat → Option (Nat × List Nat)
  | 0, l => some (0, l)
  | _ + 1, [] => none
  | w + 1, b :: rest =>
    match decLE w rest with
    | none => none
    | some (n, r) => some (b + 256 * n, r)

/-- `::encode` of a `std::string` or `bufferlist`: a 32-bit length followed by
the raw bytes. -/
def encBytes (s : List Nat) : List Nat := encLE 4 s.length ++ s

/-- `::decode` of a `std::string` or `bufferlist`: reads a 32-bit length and
takes that many bytes, failing (throwing, in C++) on buffer underflow. -/
def decBytes (l : List Nat) : Option (List Nat × List Nat) :=
  match decLE 4 l with
  | none => none
  | some (len, rest) =>
    if len ≤ rest.length then some (rest.take len, rest.drop len) else none

/-- The fields of an `MMonSync` message (MMonSync.h:99-104): `op` is a
`uint32_t`, `flags` a `uint8_t`, `version` a `version_t` (`uint64_t`),
`chunk_bl` a `bufferlist`, and the two keys are `pair<string,string>`. -/
structure SyncMsg where
  op : Nat
  flags : Nat
  version : Nat
  chunk_bl : List Nat
  first_key : List Nat × List Nat
  last_key : List Nat × List Nat
  deriving DecidableEq, Repr

/-- `MMonSync::encode_payload` (MMonSync.h:157-166): encodes `op`, `flags`,
`version`, `chunk_bl`, then the four key strings, in order. -/
def encode_payload (m : SyncMsg) : List Nat :=
  encLE 4 m.op ++ encLE 1 m.flags ++ encLE 8 m.version ++ encBytes m.chunk_bl
    ++ encBytes m.first_key.1 ++ encBytes m.first_key.2
    ++ encBytes m.last_key.1 ++ encBytes m.last_key.2

/-- `MMonSync::decode_payload` (MMonSync.h:171-181): decodes the same fields
in the same order. -/
def decode_payload (l : List Nat) : Option SyncMsg :=
  (decLE 4 l).bind fun p1 =>
  (decLE 1 p1.2).bind fun p2 =>
  (decLE 8 p2.2).bind fun p3 =>
  (decBytes p3.2).bind fun p4 =>
  (decBytes p4.2).bind fun p5 =>
  (decBytes p5.2).bind fun p6 =>
  (decBytes p6.2).bind fun p7 =>
  (decBytes p7.2).map fun p8 =>
    { op := p1.1, flags := p2.1, version := p3.1, chunk_bl := p4.1
      first_key := (p5.1, p6.1), last_key := (p7.1, p8.1) }

end MMonSync

/-! ## Monitor.cc: lifecycle, sync roles and the requester state machine

The constants `STATE_*`, `SYNC_ROLE_*` and `SYNC_STATE_*` are declared in
Monitor.h (not shipped); Monitor.cc uses `sync_role` as a bitset over
the three roles and compares it for equality against `SYNC_ROLE_NONE` and
`SYNC_ROLE_REQUESTER`, so the bitset is embedded as a structure of three
booleans and those comparisons as structure equality. -/

/-- `entity_inst_t`: the identity of a peer monitor. -/
abbrev Entity := Nat

/-- `Monitor::state` values (`STATE_*` in Monitor.h). -/
inductive MonState
  | probing | electing | synchronizing | leaderSt | peonSt | shutdown
  deriving DecidableEq, Repr

/-- The `sync_role` bitset over `SYNC_ROLE_REQUESTER`, `SYNC_ROLE_PROVIDER`
and `SYNC_ROLE_LEADER`. -/
structure SyncRole where
  requester : Bool
  provider : Bool
  leader : Bool
  deriving DecidableEq, Repr

/-- `SYNC_ROLE_NONE`: no bit set. -/
def SyncRole.roleNone : SyncRole := ⟨false, false, false⟩

/-- `SYNC_ROLE_REQUESTER` as a whole-bitset value (the code compares
`sync_role == SYNC_ROLE_REQUESTER`, i.e. requester bit only). -/
def SyncRole.requesterOnly : SyncRole := ⟨true, false, false⟩

/-- `sync_state` values (`SYNC_STATE_*` in Monitor.h). -/
inductive SyncState
  | sNone | sStart | sChunks | sStop
  deriving DecidableEq, Repr

/-- The debug overrides `mon_sync_debug_leader` / `mon_sync_debug_provider`
(resolved to monmap instances; empty string means unset). -/
structure SyncConfig where
  debug_leader : Option Entity
  debug_provider : Option Entity
  deriving DecidableEq, Repr

/-- The requester-side slice of `Monitor`: the lifecycle state and the
fields `sync_role`, `sync_state`, `sync_leader`, `sync_provider`
(Monitor.cc:109-120).  `sync_leader` / `sync_provider` are the
`SyncEntity` shared pointers, modelled by the entity they point at
(`Option.none` = null pointer). -/
structure ReqMon where
  state : MonState
  sync_role : SyncRole
  sync_state : SyncState
  sync_leader : Option Entity
  sync_provider : Option Entity
  deriving DecidableEq, Repr

/-- The state of a freshly constructed monitor (Monitor.cc:109-120):
`STATE_PROBING`, `SYNC_ROLE_NONE`, `SYNC_STATE_NONE`, null leader and
provider pointers. -/
def initMon : ReqMon :=
  { state := MonState.probing, sync_role := SyncRole.roleNone
    sync_state := SyncState.sNone, sync_leader := none, sync_provider := none }

/-- `Monitor::bootstrap` (Monitor.cc:478-539), restricted to the modelled
fields: `reset_sync` clears every sync field (Monitor.cc:599-626) and the
state returns to `STATE_PROBING`; with a single-member monmap at rank 0 the
monitor instead immediately wins a standalone election and becomes leader
(Monitor.cc:511-514, `win_election` does not touch the sync fields). -/
def bootstrap (singleton : Bool) : ReqMon :=
  { state := if singleton then MonState.leaderSt else MonState.probing
    sync_role := SyncRole.roleNone, sync_state := SyncState.sNone
    sync_leader := none, sync_provider := none }

/-- `Monitor::sync_start` (Monitor.cc:1046-1102): if already synchronizing as
requester, drop; else (the code then asserts `sync_role == SYNC_ROLE_NONE`
and `sync_state == SYNC_STATE_NONE`) enter `STATE_SYNCHRONIZING` with
`sync_role = SYNC_ROLE_REQUESTER`, `sync_state = SYNC_STATE_START`, and
create the leader and provider entities, which default to `other` unless a
debug override names another monitor. -/
def sync_start (cfg : SyncConfig) (s : ReqMon) (other : Entity) : ReqMon :=
  if s.state = MonState.synchronizing ∧ s.sync_role = SyncRole.requesterOnly then s
  else
    { state := MonState.synchronizing
      sync_role := SyncRole.requesterOnly
      sync_state := SyncState.sStart
      sync_leader := some (cfg.debug_leader.getD other)
      sync_provider := some (cfg.debug_provider.getD other) }

/-- `Monitor::handle_sync_start_reply` (Monitor.cc:1140-1186): stray unless
`sync_role == SYNC_ROLE_REQUESTER` and `sync_state == SYNC_STATE_START`;
record the replying peer as the real sync leader; on `FLAG_RETRY` drop the
role and sync state (keeping `STATE_SYNCHRONIZING`) and arm the backoff
timer; otherwise send the initial heartbeat and advance to
`SYNC_STATE_CHUNKS` via `sync_start_chunks` (Monitor.cc:1104-1123). -/
def handle_sync_start_reply (s : ReqMon) (other : Entity) (retryFlag : Bool) : ReqMon :=
  if s.sync_role = SyncRole.requesterOnly ∧ s.sync_state = SyncState.sStart then
    let s1 := { s with sync_leader := some other }
    if retryFlag then
      { s1 with sync_role := SyncRole.roleNone, sync_state := SyncState.sNone }
    else
      { s1 with sync_state := SyncState.sChunks }
  else s

/-- `Monitor::sync_stop` (Monitor.cc:1290-1312): move to `SYNC_STATE_STOP`,
cancel the provider timeout and reset the provider pointer, send `OP_FINISH`
to the sync leader and arm the finish-reply timeout. -/
def sync_stop (s : ReqMon) : ReqMon :=
  { s with sync_state := SyncState.sStop, sync_provider := none }

/-- `Monitor::handle_sync_chunk` (Monitor.cc:1214-1288), requester state
effects: stray unless requester in `SYNC_STATE_CHUNKS` with the sender being
the provider; apply the chunk transaction, ack with `OP_CHUNK_REPLY`, and on
`FLAG_LAST` call `sync_stop`. -/
def handle_sync_chunk (s : ReqMon) (other : Entity) (lastFlag : Bool) : ReqMon :=
  if s.sync_role = SyncRole.requesterOnly ∧ s.sync_state = SyncState.sChunks
      ∧ s.sync_provider = some other then
    if lastFlag then sync_stop s else s
  else s

/-- `Monitor::handle_sync_finish_reply` (Monitor.cc:1325-1361): stray unless
requester in `SYNC_STATE_STOP` with the sender being the sync leader; clear
role and sync state, reset the leader pointer, clear the `in_sync` marker,
re-init paxos and `bootstrap`. -/
def handle_sync_finish_reply (singleton : Bool) (s : ReqMon) (other : Entity) : ReqMon :=
  if s.sync_role = SyncRole.requesterOnly ∧ s.sync_state = SyncState.sStop
      ∧ s.sync_leader = some other then
    bootstrap singleton
  else s

/-- `Monitor::sync_requester_abort` (Monitor.cc:999-1035): asserts
`state == STATE_SYNCHRONIZING` and `sync_role == SYNC_ROLE_REQUESTER`
(a step precondition below); cancels timeouts, resets both entity pointers,
sends `OP_ABORT` to the provider, clears the store, drops role and sync
state, and bootstraps. -/
def sync_requester_abort (singleton : Bool) : ReqMon :=
  bootstrap singleton

/-- The requester path of `Monitor::sync_timeout` (Monitor.cc:818-864) when a
new provider is found: set the provider entity to the chosen monitor and
re-enter the chunk transfer (`sync_state` goes through `SYNC_STATE_START`
inside `sync_timeout` and to `SYNC_STATE_CHUNKS` in `sync_start_chunks`). -/
def sync_timeout_switch (s : ReqMon) (newProv : Entity) : ReqMon :=
  { s with sync_provider := some newProv, sync_state := SyncState.sChunks }

/-- The role effect of the non-RETRY leader branch of
`Monitor::handle_sync_start` (Monitor.cc:695, `sync_role |= SYNC_ROLE_LEADER`)
on the fields modelled here.  The handler has no lifecycle-state guard: a
monitor in `STATE_SYNCHRONIZING` has an empty quorum, so an incoming
`OP_START` is not forwarded (the forward at Monitor.cc:647 requires
`quorum.size() > 0`) and is processed locally.  The forward, stray and RETRY
branches leave the modelled fields unchanged. -/
def recv_sync_start (s : ReqMon) : ReqMon :=
  { s with sync_role := { s.sync_role with leader := true } }

/-- The role effect of `Monitor::handle_sync_start_chunks` (Monitor.cc:921,
`sync_role |= SYNC_ROLE_PROVIDER`) on the fields modelled here.  The handler
has no lifecycle-state guard either; its stray branch leaves the modelled
fields unchanged. -/
def recv_sync_start_chunks (s : ReqMon) : ReqMon :=
  { s with sync_role := { s.sync_role with provider := true } }

/-- The role effect of `Monitor::sync_finish` when the last tracked requester
drops (Monitor.cc:771, `sync_role &= ~SYNC_ROLE_LEADER`). -/
def clear_leader_role (s : ReqMon) : ReqMon :=
  { s with sync_role := { s.sync_role with leader := false } }

/-- The role effect of `Monitor::sync_provider_cleanup` when the last sync
entity drops (Monitor.cc:884, `sync_role &= ~SYNC_ROLE_PROVIDER`). -/
def clear_provider_role (s : ReqMon) : ReqMon :=
  { s with sync_role := { s.sync_role with provider := false } }

/-- One operation of the monitor touching the modelled fields, as a
transition relation.  Timer-driven aborts (`sync_start_reply_timeout`,
`sync_finish_reply_timeout`, heartbeat timeout, the abort disjunct of
`sync_timeout`, and `handle_sync_abort`) all funnel into
`sync_requester_abort`, whose assertions become the step's precondition;
likewise the provider-switch path of `sync_timeout` runs under its
assertions `sync_role == SYNC_ROLE_REQUESTER ∧ sync_state == SYNC_STATE_CHUNKS`,
and `sync_start` under its assertions `sync_role == SYNC_ROLE_NONE ∧
sync_state == SYNC_STATE_NONE` (checked after its already-requester guard,
Monitor.cc:1051-1057).  `bootstrap` may also fire on its own (probe timeout,
monmap change).  The `recv_start` / `recv_start_chunks` steps are the
unguarded role-bit mutations of `handle_sync_start` and
`handle_sync_start_chunks`, which fire even in `STATE_SYNCHRONIZING`;
`drop_leader` / `drop_provider` are their clearing counterparts in
`sync_finish` and `sync_provider_cleanup`. -/
inductive Step (cfg : SyncConfig) : ReqMon → ReqMon → Prop
  | start (s : ReqMon) (other : Entity)
      (h : (s.state = MonState.synchronizing ∧ s.sync_role = SyncRole.requesterOnly)
           ∨ (s.sync_role = SyncRole.roleNone ∧ s.sync_state = SyncState.sNone)) :
      Step cfg s (sync_start cfg s other)
  | start_reply (s : ReqMon) (other : Entity) (retryFlag : Bool) :
      Step cfg s (handle_sync_start_reply s other retryFlag)
  | chunk (s : ReqMon) (other : Entity) (lastFlag : Bool) :
      Step cfg s (handle_sync_chunk s other lastFlag)
  | finish_reply (s : ReqMon) (other : Entity) (singleton : Bool) :
      Step cfg s (handle_sync_finish_reply singleton s other)
  | abort (s : ReqMon) (singleton : Bool)
      (h : s.state = MonState.synchronizing ∧ s.sync_role = SyncRole.requesterOnly) :
      Step cfg s (sync_requester_abort singleton)
  | timeout_switch (s : ReqMon) (newProv : Entity)
      (h : s.state = MonState.synchronizing ∧ s.sync_role = SyncRole.requesterOnly
           ∧ s.sync_state = SyncState.sChunks) :
      Step cfg s (sync_timeout_switch s newProv)
  | boot (s : ReqMon) (singleton : Bool) :
      Step cfg s (bootstrap singleton)
  | recv_start (s : ReqMon) :
      Step cfg s (recv_sync_start s)
  | recv_start_chunks (s : ReqMon) :
      Step cfg s (recv_sync_start_chunks s)
  | drop_leader (s : ReqMon) :
      Step cfg s (clear_leader_role s)
  | drop_provider (s : ReqMon) :
      Step cfg s (clear_provider_role s)

/-- States reachable from the freshly constructed monitor by requester-side
operations. -/
inductive Reachable (cfg : SyncConfig) : ReqMon → Prop
  | init : Reachable cfg initMon
  | step {s s' : ReqMon} : Reachable cfg s → Step cfg s s' → Reachable cfg s'

/-- The invariant the code actually maintains on the requester fields while
`state == STATE_SYNCHRONIZING`.  Only the `SYNC_ROLE_REQUESTER` *bit* is
constrained: `handle_sync_start` and `handle_sync_start_chunks` can OR the
`SYNC_ROLE_LEADER` / `SYNC_ROLE_PROVIDER` bits into `sync_role` even while
synchronizing, so whole-bitset equality with `SYNC_ROLE_REQUESTER` does not
hold in general. -/
def ReqInv (s : ReqMon) : Prop :=
  s.state = MonState.synchronizing →
    (s.sync_leader.isSome = true ∧
     ((s.sync_state = SyncState.sStart ∨ s.sync_state = SyncState.sChunks) →
        s.sync_role.requester = true ∧ s.sync_provider.isSome = true) ∧
     (s.sync_state = SyncState.sStop →
        s.sync_role.requester = true ∧ s.sync_provider = none) ∧
     (s.sync_state = SyncState.sNone → s.sync_role.requester = false))

/-! ## Monitor.cc: per-chunk provider timeout (`sync_timeout`) -/

/-- Inputs of `Monitor::sync_timeout` (Monitor.cc:818-871): the lifecycle
state, the role bitset, `sync_provider->attempts` before the increment on
entry, `monmap->size()`, and `g_conf->mon_sync_max_retries`. -/
structure SyncTimeoutIn where
  state : MonState
  sync_role : SyncRole
  attempts : Nat
  monmap_size : Nat
  max_retries : Nat
  deriving DecidableEq, Repr

/-- What `Monitor::sync_timeout` does. -/
inductive SyncTimeoutAction
  | requesterAbort
  | pickNewProvider
  | providerCleanup
  | unreachableCrash
  deriving DecidableEq, Repr

/-- `Monitor::sync_timeout` (Monitor.cc:818-871).  In `STATE_SYNCHRONIZING`
(the code then asserts requester role and `SYNC_STATE_CHUNKS`), increment
`sync_provider->attempts`; if `attempts > mon_sync_max_retries` *or the
monmap has exactly two members*, call `sync_requester_abort`; otherwise pick
another monitor and restart the chunk transfer.  Outside synchronizing, a
provider cleans up the timed-out requester; any other combination hits
`assert(0)`. -/
def sync_timeout (i : SyncTimeoutIn) : SyncTimeoutAction :=
  if i.state = MonState.synchronizing then
    if i.attempts + 1 > i.max_retries ∨ i.monmap_size = 2 then
      SyncTimeoutAction.requesterAbort
    else
      SyncTimeoutAction.pickNewProvider
  else if i.sync_role.provider then SyncTimeoutAction.providerCleanup
  else SyncTimeoutAction.unreachableCrash

/-! ## Monitor.cc: requester-side CRC verification of a chunk -/

/-- Inputs of the CRC section of `Monitor::handle_sync_chunk`
(Monitor.cc:1259-1283): `g_conf->mon_sync_debug`, the `FLAG_CRC` and
`FLAG_LAST` bits of the received message, the CRC carried by the message,
and the CRC the store recomputes over the paxos prefix (`FLAG_LAST` case)
or over all sync-target prefixes (otherwise). -/
structure ChunkCrcIn where
  sync_debug : Bool
  flag_crc : Bool
  flag_last : Bool
  msg_crc : Nat
  store_crc_paxos : Nat
  store_crc_all : Nat
  deriving DecidableEq, Repr

/-- Outcome of the CRC section: skipped entirely, verified equal, or
`assert(m->crc == got_crc)` failing (fatal). -/
inductive CrcOutcome
  | skipped | verified | fatalMismatch
  deriving DecidableEq, Repr

/-- The CRC section of `Monitor::handle_sync_chunk` (Monitor.cc:1259-1283):
the whole check runs only under `g_conf->mon_sync_debug && (m->flags &
MMonSync::FLAG_CRC)`; it recomputes the CRC over the paxos prefix when
`FLAG_LAST` is set, over all sync-target prefixes otherwise, and asserts
equality with the message's CRC. -/
def chunk_crc_check (i : ChunkCrcIn) : CrcOutcome :=
  if i.sync_debug = true ∧ i.flag_crc = true then
    let got := if i.flag_last then i.store_crc_paxos else i.store_crc_all
    if i.msg_crc = got then CrcOutcome.verified else CrcOutcome.fatalMismatch
  else CrcOutcome.skipped

/-! ## Monitor.cc: sync-leader side (`handle_sync_start`, `sync_finish`,
`lose_election`) -/

/-- The sync-leader slice of `Monitor`: `is_leader()`, `quorum.size()`,
`paxos->should_trim()`, whether `trim_enable_timer` is armed, whether
`paxos->trim_disable()` has been called, the keys of the `trim_timeouts`
map (each holding an armed per-requester trim timeout), the requesters
recorded in `SYNC_STATE_START` in `sync_entities_states`, and the
`SYNC_ROLE_LEADER` bit of `sync_role`. -/
structure SyncLeaderSt where
  is_leader : Bool
  quorum_size : Nat
  should_trim : Bool
  trim_enable_timer : Bool
  trim_disabled : Bool
  trim_timeouts : List Entity
  states_start : List Entity
  role_leader : Bool
  deriving DecidableEq, Repr

/-- Flags on the `OP_START_REPLY` message sent by `handle_sync_start`. -/
inductive StartReplyFlags
  | noFlags | retry
  deriving DecidableEq, Repr

/-- Result of `Monitor::handle_sync_start`. -/
inductive HandleSyncStartResult
  | forwardedToLeader
  | strayDrop
  | reply (st : SyncLeaderSt) (flags : StartReplyFlags)
  deriving DecidableEq, Repr

/-- `Monitor::handle_sync_start` (Monitor.cc:638-703).  A non-leader inside a
quorum forwards the message to the real leader.  Otherwise, under
`trim_lock`: a requester already tracked in `trim_timeouts` whose recorded
state is not `SYNC_STATE_NONE` is a stray (dropped, no reply); a tracked
requester in state NONE has its session destroyed and recreated.  Then, if
`(quorum.size() > 0 && paxos->should_trim()) || trim_enable_timer != NULL`,
reply `OP_START_REPLY` with `FLAG_RETRY` and change nothing else; else arm a
per-requester trim timeout, record `SYNC_STATE_START`, set
`SYNC_ROLE_LEADER`, call `paxos->trim_disable()`, and reply with no flags. -/
def handle_sync_start (st : SyncLeaderSt) (other : Entity) : HandleSyncStartResult :=
  if st.is_leader = false ∧ 0 < st.quorum_size then
    HandleSyncStartResult.forwardedToLeader
  else if other ∈ st.trim_timeouts ∧ other ∈ st.states_start then
    HandleSyncStartResult.strayDrop
  else
    let st1 := if other ∈ st.trim_timeouts then
        { st with trim_timeouts := st.trim_timeouts.erase other,
                  states_start := st.states_start.erase other }
      else st
    if (0 < st1.quorum_size ∧ st1.should_trim = true) ∨ st1.trim_enable_timer = true then
      HandleSyncStartResult.reply st1 StartReplyFlags.retry
    else
      HandleSyncStartResult.reply
        { st1 with trim_timeouts := other :: st1.trim_timeouts,
                   states_start := other :: st1.states_start,
                   role_leader := true,
                   trim_disabled := true }
        StartReplyFlags.noFlags

/-- Result of `Monitor::lose_election` restricted to sync-leader duties:
the updated state, the requesters sent `OP_ABORT`, and the trim-timeout
events cancelled. -/
structure LoseElectionOut where
  st : SyncLeaderSt
  aborts : List Entity
  cancelled : List Entity
  deriving DecidableEq, Repr

/-- The sync-leader section of `Monitor::lose_election` (Monitor.cc:1707-1728):
for every entry of `trim_timeouts`, cancel the timeout event and send
`OP_ABORT` to the requester; then clear `trim_timeouts` and clear the
`SYNC_ROLE_LEADER` bit. -/
def lose_election (st : SyncLeaderSt) : LoseElectionOut :=
  { st := { st with trim_timeouts := [], role_leader := false }
    aborts := st.trim_timeouts
    cancelled := st.trim_timeouts }

/-! ## Monitor.cc: probe replies with no quorum (`handle_probe_reply`) -/

/-- Inputs of the no-quorum branch of `Monitor::handle_probe_reply`
(Monitor.cc:1614-1648): the peer's reported paxos versions and name, this
monitor's paxos version and first committed version, its own name, the
monmap member names, and the current `outside_quorum` set.  Names are
abstracted to `Nat`. -/
structure ProbeNoQuorumIn where
  peer_first : Nat
  peer_last : Nat
  peer_name : Nat
  my_version : Nat
  my_first_committed : Nat
  my_name : Nat
  monmap : Finset Nat
  outside_quorum : Finset Nat
  deriving DecidableEq

/-- Outcome of the no-quorum branch. -/
inductive ProbeOutcome
  | syncStart | waitForPeer | electionCalled | waiting
  deriving DecidableEq, Repr

/-- The no-quorum branch of `Monitor::handle_probe_reply`
(Monitor.cc:1614-1648): if `m->paxos_first_version > paxos->get_version()`,
sync against the peer; else if `paxos->get_first_committed() >
m->paxos_last_version`, wait for the peer to sync from us; else insert the
peer into `outside_quorum` if it is in the monmap, compute
`need = monmap->size() / 2 + 1`, and call an election iff
`outside_quorum.size() >= need` and `outside_quorum` contains our name.
Returns the outcome and the updated `outside_quorum`. -/
def handle_probe_reply_noquorum (i : ProbeNoQuorumIn) : ProbeOutcome × Finset Nat :=
  if i.my_version < i.peer_first then (ProbeOutcome.syncStart, i.outside_quorum)
  else if i.peer_last < i.my_first_committed then (ProbeOutcome.waitForPeer, i.outside_quorum)
  else
    let oq := if i.peer_name ∈ i.monmap then insert i.peer_name i.outside_quorum
              else i.outside_quorum
    let need := i.monmap.card / 2 + 1
    if need ≤ oq.card then
      if i.my_name ∈ oq then (ProbeOutcome.electionCalled, oq)
      else (ProbeOutcome.waiting, oq)
    else (ProbeOutcome.waiting, oq)

/-! ## Monitor.cc: dispatch admission gate and paxos epoch check -/

/-- Message categories distinguished by `Monitor::_ms_dispatch`; the
admission gate's comment (Monitor.cc:2424-2429) claims monitors, auth
messages and command messages are whitelisted. -/
inductive MsgType
  | auth | command | monSync | monProbe | paxos | election | route | forward | otherClient
  deriving DecidableEq, Repr

/-- Inputs of the out-of-quorum admission gate in `Monitor::_ms_dispatch`
(Monitor.cc:2406-2446): whether a live (non-closed) session exists on the
connection, whether `exited_quorum` is non-zero (out of quorum), whether the
peer type is a monitor, whether the message's receive stamp is within
`mon_lease` of now, whether the connection is still connected, and the
message's category. -/
structure DispatchIn where
  has_session : Bool
  exited_quorum_nonzero : Bool
  src_is_mon : Bool
  msg_recent : Bool
  connected : Bool
  msg_type : MsgType
  deriving DecidableEq, Repr

/-- What the admission gate does with the message. -/
inductive AdmissionResult
  | waitlisted | droppedMarkDown | admitted
  deriving DecidableEq, Repr

/-- The out-of-quorum admission gate of `Monitor::_ms_dispatch`
(Monitor.cc:2415-2446): with no session, out of quorum, and a non-monitor
source, the message is waitlisted when recent and still connected, else the
connection is marked down and the message dropped.  The condition tests only
`!exited_quorum.is_zero() && !src_is_mon`: the message's category is not
consulted. -/
def admission_gate (i : DispatchIn) : AdmissionResult :=
  if i.has_session = false ∧ i.exited_quorum_nonzero = true ∧ i.src_is_mon = false then
    if i.msg_recent = true ∧ i.connected = true then AdmissionResult.waitlisted
    else AdmissionResult.droppedMarkDown
  else AdmissionResult.admitted

/-- Inputs of the `MSG_MON_PAXOS` case of `Monitor::_ms_dispatch`
(Monitor.cc:2559-2590): the peer type, whether the session's caps pass
`check_privileges(PAXOS_MONMAP, MON_CAP_X)`, the message's epoch and the
monitor's current election epoch (`get_epoch()`). -/
structure PaxosDispatchIn where
  src_is_mon : Bool
  caps_allow : Bool
  msg_epoch : Nat
  cur_epoch : Nat
  deriving DecidableEq, Repr

/-- What the `MSG_MON_PAXOS` case does. -/
inductive PaxosDispatchResult
  | dropNoCaps | bootstrapped | droppedSilently | delivered
  deriving DecidableEq, Repr

/-- The `MSG_MON_PAXOS` case of `Monitor::_ms_dispatch` (Monitor.cc:2559-2590):
a non-monitor without `MON_CAP_X` on the monmap service is dropped; a message
with `pm->epoch > get_epoch()` triggers `bootstrap()` and is not delivered;
one with `pm->epoch != get_epoch()` (hence strictly less) is dropped with no
other effect; only a message at exactly the current epoch reaches
`paxos->dispatch`. -/
def dispatch_paxos (i : PaxosDispatchIn) : PaxosDispatchResult :=
  if i.src_is_mon = false ∧ i.caps_allow = false then PaxosDispatchResult.dropNoCaps
  else if i.cur_epoch < i.msg_epoch then PaxosDispatchResult.bootstrapped
  else if i.msg_epoch ≠ i.cur_epoch then PaxosDispatchResult.droppedSilently
  else PaxosDispatchResult.delivered

/-! ## Theorems -/

namespace MMonSync

theorem decLE_encLE (w : Nat) : ∀ (n : Nat) (rest : List Nat), n < 256 ^ w →
    decLE w (encLE w n ++ rest) = some (n, rest) := by
  induction w with
  | zero =>
    intro n rest h
    interval_cases n
    rfl
  | succ w ih =>
    intro n rest h
    have hdiv : n / 256 < 256 ^ w := by
      apply Nat.div_lt_of_lt_mul
      calc n < 256 ^ (w + 1) := h
        _ = 256 * 256 ^ w := by ring
    have hsplit : encLE (w + 1) n ++ rest = n % 256 :: (encLE w (n / 256) ++ rest) := by
      simp [encLE]
    rw [hsplit]
    simp only [decLE, ih (n / 256) rest hdiv]
    simp [Nat.mod_add_div]

theorem take_len_append (s rest : List Nat) : (s ++ rest).take s.length = s := by
  induction s with
  | nil => rfl
  | cons a t ih => simp [ih]

theorem drop_len_append (s rest : List Nat) : (s ++ rest).drop s.length = rest := by
  induction s with
  | nil => rfl
  | cons a t ih => simp [ih]

theorem decBytes_encBytes (s rest : List Nat) (h : s.length < 256 ^ 4) :
    decBytes (encBytes s ++ rest) = some (s, rest) := by
  have henc : encBytes s ++ rest = encLE 4 s.length ++ (s ++ rest) := by
    simp [encBytes]
  rw [henc]
  simp only [decBytes, decLE_encLE 4 s.length (s ++ rest) h]
  rw [if_pos (by simp)]
  rw [take_len_append, drop_len_append]

theorem decBytes_encBytes_nil (s : List Nat) (h : s.length < 256 ^ 4) :
    decBytes (encBytes s) = some (s, []) := by
  have := decBytes_encBytes s [] h
  simpa using this

/-- C9: for every `MMonSync` message whose fields fit their C++ integer types
(`op : uint32_t`, `flags : uint8_t`, `version : uint64_t`, 32-bit byte
lengths), decoding the payload produced by `encode_payload` yields the
original message: `op`, `flags`, `version`, `chunk_bl`, `first_key` and
`last_key` all round-trip. -/
theorem encode_decode_roundtrip (m : SyncMsg)
    (hop : m.op < 2 ^ 32) (hfl : m.flags < 2 ^ 8) (hv : m.version < 2 ^ 64)
    (hc : m.chunk_bl.length < 2 ^ 32)
    (hf1 : m.first_key.1.length < 2 ^ 32) (hf2 : m.first_key.2.length < 2 ^ 32)
    (hl1 : m.last_key.1.length < 2 ^ 32) (hl2 : m.last_key.2.length < 2 ^ 32) :
    decode_payload (encode_payload m) = some m := by
  obtain ⟨op, fl, v, cb, ⟨k1, k2⟩, ⟨k3, k4⟩⟩ := m
  simp only at hop hfl hv hc hf1 hf2 hl1 hl2
  have b32 : (2 : ℕ) ^ 32 = 256 ^ 4 := by norm_num
  have b8 : (2 : ℕ) ^ 8 = 256 ^ 1 := by norm_num
  have b64 : (2 : ℕ) ^ 64 = 256 ^ 8 := by norm_num
  rw [b32] at hop hc hf1 hf2 hl1 hl2
  rw [b8] at hfl
  rw [b64] at hv
  simp only [encode_payload, decode_payload, List.append_assoc]
  rw [decLE_encLE 4 op _ hop]
  simp only [Option.some_bind]
  rw [decLE_encLE 1 fl _ hfl]
  simp only [Option.some_bind]
  rw [decLE_encLE 8 v _ hv]
  simp only [Option.some_bind]
  rw [decBytes_encBytes cb _ hc]
  simp only [Option.some_bind]
  rw [decBytes_encBytes k1 _ hf1]
  simp only [Option.some_bind]
  rw [decBytes_encBytes k2 _ hf2]
  simp only [Option.some_bind]
  rw [decBytes_encBytes k3 _ hl1]
  simp only [Option.some_bind]
  rw [decBytes_encBytes_nil k4 hl2]
  rfl

/-- Witness for C9 at a concrete message. -/
theorem encode_decode_roundtrip_witness :
    decode_payload (encode_payload
        { op := 7, flags := 3, version := 5, chunk_bl := [9, 8]
          first_key := ([1], [2]), last_key := ([3], [4]) })
      = some { op := 7, flags := 3, version := 5, chunk_bl := [9, 8]
               first_key := ([1], [2]), last_key := ([3], [4]) } :=
  encode_decode_roundtrip _ (by decide) (by decide) (by decide) (by decide)
    (by decide) (by decide) (by decide) (by decide)

/-- C10: `get_opname` does *not* return a non-null string for every declared
op: the switch (MMonSync.h:86-97) has no case for `OP_HEARTBEAT_REPLY`, the
default branch's `assert("unknown op type")` never fires (a string literal is
always true), and the function returns the null pointer.  Every other
declared op does get a non-null name.  `print` (MMonSync.h:123-124) passes
`get_opname(op)` straight to the output stream, so printing a heartbeat-reply
message — which the monitor itself both sends (`sync_send_heartbeat` with
`reply = true`) and accepts (`handle_sync`) — dereferences NULL. -/
theorem get_opname_heartbeat_reply_null :
    get_opname OP_HEARTBEAT_REPLY = none ∧
    (∀ op, op ∈ [OP_START, OP_START_REPLY, OP_HEARTBEAT, OP_FINISH,
        OP_START_CHUNKS, OP_CHUNK, OP_CHUNK_REPLY] → (get_opname op).isSome = true) := by
  decide

end MMonSync

theorem requesterOnly_requester : SyncRole.requesterOnly.requester = true := rfl

theorem roleNone_requester : SyncRole.roleNone.requester = false := rfl

/-- C1 (amended): over every run of the operations touching the sync fields
— including the unguarded role-bit mutations of `handle_sync_start` and
`handle_sync_start_chunks`, which fire even while synchronizing — while
`state = STATE_SYNCHRONIZING` the monitor has a non-null `sync_leader`;
while the sync phase is `START` or `CHUNKS` the `SYNC_ROLE_REQUESTER` bit of
`sync_role` is set and `sync_provider` is non-null; in phase `STOP` (after
`sync_stop` sends `OP_FINISH`) the requester bit is still set but
`sync_provider` is null; and in phase `NONE` (after an `OP_START_REPLY`
carrying `FLAG_RETRY`, awaiting the backoff retry) the requester bit is
clear.  Whole-bitset equality `sync_role = SYNC_ROLE_REQUESTER` is *not*
invariant: an incoming `OP_START` or `OP_START_CHUNKS` ORs the
`SYNC_ROLE_LEADER` / `SYNC_ROLE_PROVIDER` bit in. -/
theorem synchronizing_invariant (cfg : SyncConfig) (s : ReqMon)
    (h : Reachable cfg s) : ReqInv s := by
  induction h with
  | init => exact fun hst => absurd hst (by decide)
  | @step t t' _ hstep ih =>
    cases hstep with
    | start other hpre =>
      by_cases hg : t.state = MonState.synchronizing ∧ t.sync_role = SyncRole.requesterOnly
      · simpa [sync_start, hg] using ih
      · simp [sync_start, hg, ReqInv, requesterOnly_requester]
    | start_reply other retryFlag =>
      by_cases hg : t.sync_role = SyncRole.requesterOnly ∧ t.sync_state = SyncState.sStart
      · by_cases hst : t.state = MonState.synchronizing
        · rcases ih hst with ⟨hl, hsc, hstop, hnone⟩
          have hprov : t.sync_provider.isSome = true := (hsc (Or.inl hg.2)).2
          cases retryFlag
          · unfold ReqInv
            simp [handle_sync_start_reply, hg, hst, hprov, hg.1,
              requesterOnly_requester]
          · unfold ReqInv
            simp [handle_sync_start_reply, hg, hst, roleNone_requester]
        · unfold ReqInv
          intro hst2
          cases retryFlag <;>
            · simp [handle_sync_start_reply, hg] at hst2
              exact absurd hst2 hst
      · simpa [handle_sync_start_reply, hg] using ih
    | chunk other lastFlag =>
      by_cases hg : t.sync_role = SyncRole.requesterOnly ∧ t.sync_state = SyncState.sChunks
          ∧ t.sync_provider = some other
      · cases lastFlag
        · simpa [handle_sync_chunk, hg] using ih
        · by_cases hst : t.state = MonState.synchronizing
          · rcases ih hst with ⟨hl, hsc, hstop, hnone⟩
            unfold ReqInv
            simp [handle_sync_chunk, hg, sync_stop, hst, hl, hg.1,
              requesterOnly_requester]
          · unfold ReqInv
            intro hst2
            simp [handle_sync_chunk, hg, sync_stop] at hst2
            exact absurd hst2 hst
      · simpa [handle_sync_chunk, hg] using ih
    | finish_reply other singleton =>
      by_cases hg : t.sync_role = SyncRole.requesterOnly ∧ t.sync_state = SyncState.sStop
          ∧ t.sync_leader = some other
      · cases singleton <;> simp [handle_sync_finish_reply, hg, bootstrap, ReqInv]
      · simpa [handle_sync_finish_reply, hg] using ih
    | abort singleton hpre =>
      cases singleton <;> simp [sync_requester_abort, bootstrap, ReqInv]
    | timeout_switch newProv hpre =>
      rcases ih hpre.1 with ⟨hl, hsc, hstop, hnone⟩
      unfold ReqInv
      simp [sync_timeout_switch, hpre.1, hpre.2.1, hl, requesterOnly_requester]
    | boot singleton =>
      cases singleton <;> simp [bootstrap, ReqInv]
    | recv_start =>
      simpa [ReqInv, recv_sync_start] using ih
    | recv_start_chunks =>
      simpa [ReqInv, recv_sync_start_chunks] using ih
    | drop_leader =>
      simpa [ReqInv, clear_leader_role] using ih
    | drop_provider =>
      simpa [ReqInv, clear_provider_role] using ih

/-- Witness for C1 (amended) at the concrete state reached by `sync_start`. -/
theorem synchronizing_invariant_witness :
    ReqInv (sync_start ⟨none, none⟩ initMon 1) :=
  synchronizing_invariant ⟨none, none⟩ _
    (Reachable.step Reachable.init (Step.start initMon 1 (Or.inr (by decide))))

/-- C1 counterexample: the invariant as claimed is false at both of its named
points.  After `sync_start` and then an `OP_START_REPLY` carrying
`FLAG_RETRY` (`handle_sync_start_reply`, Monitor.cc:1169-1176), the monitor
is still in `STATE_SYNCHRONIZING` but `sync_role` has been dropped to
`SYNC_ROLE_NONE`; and after the last chunk (`sync_stop`,
Monitor.cc:1290-1312), still synchronizing, `sync_provider` is null. -/
theorem synchronizing_invariant_counterexample :
    (¬ ∀ (s : ReqMon), Reachable ⟨none, none⟩ s → s.state = MonState.synchronizing →
        (s.sync_role = SyncRole.requesterOnly ∧ s.sync_leader.isSome = true
          ∧ s.sync_provider.isSome = true)) ∧
    Reachable ⟨none, none⟩
      (handle_sync_chunk (handle_sync_start_reply (sync_start ⟨none, none⟩ initMon 1) 1 false) 1 true) ∧
    (handle_sync_chunk (handle_sync_start_reply (sync_start ⟨none, none⟩ initMon 1) 1 false) 1 true).state
        = MonState.synchronizing ∧
    (handle_sync_chunk (handle_sync_start_reply (sync_start ⟨none, none⟩ initMon 1) 1 false) 1 true).sync_provider
        = none := by
  refine ⟨?_, ?_, by decide, by decide⟩
  · intro hcl
    have hr : Reachable ⟨none, none⟩
        (handle_sync_start_reply (sync_start ⟨none, none⟩ initMon 1) 1 true) :=
      Reachable.step
        (Reachable.step Reachable.init (Step.start initMon 1 (Or.inr (by decide))))
        (Step.start_reply _ 1 true)
    have hc := hcl _ hr (by decide)
    exact absurd hc.1 (by decide)
  · exact Reachable.step
      (Reachable.step
        (Reachable.step Reachable.init (Step.start initMon 1 (Or.inr (by decide))))
        (Step.start_reply _ 1 false))
      (Step.chunk _ 1 true)

/-- C2: when the elected leader handles `OP_START` from a requester with no
tracked session: if trimming is in progress (non-empty quorum and
`should_trim`) or a trim-enable timer is pending, it replies
`OP_START_REPLY` with `FLAG_RETRY` and changes no sync state; otherwise it
arms the per-requester trim timeout, records `SYNC_STATE_START`, sets
`SYNC_ROLE_LEADER`, disables log trimming, and replies with no flags. -/
theorem handle_sync_start_leader_spec (st : SyncLeaderSt) (other : Entity)
    (hld : st.is_leader = true) (hnew : other ∉ st.trim_timeouts) :
    (((0 < st.quorum_size ∧ st.should_trim = true) ∨ st.trim_enable_timer = true) →
       handle_sync_start st other = HandleSyncStartResult.reply st StartReplyFlags.retry)
    ∧ (¬ ((0 < st.quorum_size ∧ st.should_trim = true) ∨ st.trim_enable_timer = true) →
       handle_sync_start st other =
         HandleSyncStartResult.reply
           { st with trim_timeouts := other :: st.trim_timeouts,
                     states_start := other :: st.states_start,
                     role_leader := true, trim_disabled := true }
           StartReplyFlags.noFlags) := by
  have h1 : ¬ (st.is_leader = false ∧ 0 < st.quorum_size) := by simp [hld]
  have h2 : ¬ (other ∈ st.trim_timeouts ∧ other ∈ st.states_start) := fun hc => hnew hc.1
  refine ⟨fun hc => ?_, fun hc => ?_⟩
  · simp only [handle_sync_start, if_neg h1, if_neg h2, if_neg hnew, if_pos hc]
  · simp only [handle_sync_start, if_neg h1, if_neg h2, if_neg hnew, if_neg hc]

/-- Witness for C2: both branches at concrete leader states. -/
theorem handle_sync_start_leader_spec_witness :
    handle_sync_start ⟨true, 0, false, false, false, [], [], false⟩ 7 =
      HandleSyncStartResult.reply ⟨true, 0, false, false, true, [7], [7], true⟩
        StartReplyFlags.noFlags ∧
    handle_sync_start ⟨true, 3, true, false, false, [], [], false⟩ 7 =
      HandleSyncStartResult.reply ⟨true, 3, true, false, false, [], [], false⟩
        StartReplyFlags.retry :=
  ⟨(handle_sync_start_leader_spec ⟨true, 0, false, false, false, [], [], false⟩ 7
      rfl (by decide)).2 (by decide),
   (handle_sync_start_leader_spec ⟨true, 3, true, false, false, [], [], false⟩ 7
      rfl (by decide)).1 (by decide)⟩

/-- C3 counterexample: with a three-member monmap, `outside_quorum = {0}`
(ourselves) and a probe reply from member 1 that forces neither a sync nor a
wait, the code calls an election at `outside_quorum = {0, 1}` of size 2,
because its threshold is `monmap->size() / 2 + 1 = 2`; the claimed threshold
`⌈n/2⌉ + 1 = 3` has not been reached. -/
theorem probe_reply_threshold_counterexample :
    handle_probe_reply_noquorum ⟨3, 5, 1, 5, 1, 0, {0, 1, 2}, {0}⟩
      = (ProbeOutcome.electionCalled, {0, 1}) ∧
    (({0, 1} : Finset Nat).card < (({0, 1, 2} : Finset Nat).card + 1) / 2 + 1) := by
  decide

/-- C3 (amended): in Probing, on a no-quorum probe reply from a monmap member
whose log versions force neither a sync nor a wait, the peer is inserted into
`outside_quorum`, and an election is called exactly when the updated set has
size at least `⌊n/2⌋ + 1` (n = monmap size) and contains this monitor's own
name. -/
theorem probe_reply_noquorum_spec (i : ProbeNoQuorumIn)
    (hs : i.peer_first ≤ i.my_version) (hw : i.my_first_committed ≤ i.peer_last)
    (hm : i.peer_name ∈ i.monmap) :
    (handle_probe_reply_noquorum i).2 = insert i.peer_name i.outside_quorum ∧
    ((handle_probe_reply_noquorum i).1 = ProbeOutcome.electionCalled ↔
      (i.monmap.card / 2 + 1 ≤ (insert i.peer_name i.outside_quorum).card ∧
       i.my_name ∈ insert i.peer_name i.outside_quorum)) := by
  have h1 : ¬ i.my_version < i.peer_first := Nat.not_lt.mpr hs
  have h2 : ¬ i.peer_last < i.my_first_committed := Nat.not_lt.mpr hw
  simp only [handle_probe_reply_noquorum, if_neg h1, if_neg h2, if_pos hm]
  constructor
  · split_ifs <;> rfl
  · split_ifs with hn hmem
    · simp [hn, hmem]
    · simp [hn, hmem]
    · simp [hn]

/-- Witness for C3 (amended): four-member monmap, set reaches size 2 < 3, no
election yet. -/
theorem probe_reply_noquorum_spec_witness :
    (handle_probe_reply_noquorum ⟨2, 7, 2, 6, 1, 0, {0, 1, 2, 3}, {0}⟩).2
      = insert 2 ({0} : Finset Nat) ∧
    ((handle_probe_reply_noquorum ⟨2, 7, 2, 6, 1, 0, {0, 1, 2, 3}, {0}⟩).1
        = ProbeOutcome.electionCalled ↔
      (({0, 1, 2, 3} : Finset Nat).card / 2 + 1 ≤ (insert 2 ({0} : Finset Nat)).card ∧
       0 ∈ insert 2 ({0} : Finset Nat))) :=
  probe_reply_noquorum_spec ⟨2, 7, 2, 6, 1, 0, {0, 1, 2, 3}, {0}⟩
    (by decide) (by decide) (by decide)

/-- C4 counterexample: in a two-member monmap, the very first provider
timeout already aborts the sync — the provider has been tried once, which is
fewer than `mon_sync_max_retries = 5` — because `sync_timeout` aborts on
`monmap->size() == 2` regardless of the retry count. -/
theorem sync_timeout_two_member_counterexample :
    sync_timeout ⟨MonState.synchronizing, SyncRole.requesterOnly, 0, 2, 5⟩
      = SyncTimeoutAction.requesterAbort ∧ 0 + 1 < 5 := by
  decide

/-- C4 (amended): in a two-member monmap, the sync requester's provider
timeout always calls `sync_requester_abort` immediately — on the first
timeout, regardless of `mon_sync_max_retries` — rather than looping forever;
the retry-until-`mon_sync_max_retries` path only applies to larger maps. -/
theorem sync_timeout_two_member_spec (i : SyncTimeoutIn)
    (hst : i.state = MonState.synchronizing) (hsz : i.monmap_size = 2) :
    sync_timeout i = SyncTimeoutAction.requesterAbort := by
  simp [sync_timeout, hst, hsz]

/-- Witness for C4 (amended). -/
theorem sync_timeout_two_member_spec_witness :
    sync_timeout ⟨MonState.synchronizing, SyncRole.requesterOnly, 3, 2, 10⟩
      = SyncTimeoutAction.requesterAbort :=
  sync_timeout_two_member_spec _ rfl rfl

/-- C5 counterexample: an `OP_CHUNK` whose `FLAG_CRC` bit is set is *not*
verified when `mon_sync_debug` is off: the whole CRC section is skipped, so a
corrupt chunk is applied silently. -/
theorem chunk_crc_counterexample :
    chunk_crc_check ⟨false, true, false, 1, 0, 0⟩ = CrcOutcome.skipped := by
  decide

/-- C5 (amended): when `mon_sync_debug` is enabled, every `OP_CHUNK` whose
`FLAG_CRC` bit is set has its CRC recomputed over the corresponding store
prefix group (paxos only on `FLAG_LAST`, all sync targets otherwise) and
compared with the sender's CRC; a mismatch is fatal
(`assert(m->crc == got_crc)`), never silently ignored. -/
theorem chunk_crc_spec (i : ChunkCrcIn)
    (hd : i.sync_debug = true) (hc : i.flag_crc = true) :
    (chunk_crc_check i = CrcOutcome.verified ↔
       i.msg_crc = (if i.flag_last then i.store_crc_paxos else i.store_crc_all)) ∧
    (chunk_crc_check i = CrcOutcome.fatalMismatch ↔
       i.msg_crc ≠ (if i.flag_last then i.store_crc_paxos else i.store_crc_all)) := by
  unfold chunk_crc_check
  rw [if_pos ⟨hd, hc⟩]
  split_ifs with h <;> simp [h]

/-- Witness for C5 (amended). -/
theorem chunk_crc_spec_witness :
    (chunk_crc_check ⟨true, true, false, 5, 9, 5⟩ = CrcOutcome.verified ↔
       5 = (if false then 9 else 5)) ∧
    (chunk_crc_check ⟨true, true, false, 5, 9, 5⟩ = CrcOutcome.fatalMismatch ↔
       5 ≠ (if false then 9 else 5)) :=
  chunk_crc_spec ⟨true, true, false, 5, 9, 5⟩ rfl rfl

/-- C6: the out-of-quorum admission gate does *not* whitelist auth or command
messages, contrary to its own comment (Monitor.cc:2424-2429) and the spec:
the gate tests only `!exited_quorum.is_zero() && !src_is_mon`, so with no
session and out of quorum a recent auth or command message from a live
client connection is waitlisted instead of dispatched, while a peer-monitor
message is admitted. -/
theorem admission_gate_auth_not_bypassed :
    admission_gate ⟨false, true, false, true, true, MsgType.auth⟩
      = AdmissionResult.waitlisted ∧
    admission_gate ⟨false, true, false, true, true, MsgType.command⟩
      = AdmissionResult.waitlisted ∧
    admission_gate ⟨false, true, true, true, true, MsgType.monSync⟩
      = AdmissionResult.admitted := by
  decide

/-- C7: after the sync-leader section of `lose_election`, every requester
that was tracked in `trim_timeouts` has been sent `OP_ABORT`, every trim
timeout event has been cancelled, `trim_timeouts` is empty, and the
`SYNC_ROLE_LEADER` bit is cleared. -/
theorem lose_election_spec (st : SyncLeaderSt) :
    (lose_election st).st.trim_timeouts = [] ∧
    (lose_election st).st.role_leader = false ∧
    (lose_election st).aborts = st.trim_timeouts ∧
    (lose_election st).cancelled = st.trim_timeouts := by
  simp [lose_election]

/-- C8: for a paxos message that passes the capability gate (peer monitors
always do), an epoch strictly greater than the current election epoch
triggers `bootstrap()` without delivery, an epoch strictly less is dropped
silently, and a message is delivered to `paxos->dispatch` exactly when its
epoch equals the current one. -/
theorem dispatch_paxos_epoch_spec (i : PaxosDispatchIn)
    (hcaps : i.src_is_mon = true ∨ i.caps_allow = true) :
    (i.cur_epoch < i.msg_epoch → dispatch_paxos i = PaxosDispatchResult.bootstrapped) ∧
    (i.msg_epoch < i.cur_epoch → dispatch_paxos i = PaxosDispatchResult.droppedSilently) ∧
    (dispatch_paxos i = PaxosDispatchResult.delivered ↔ i.msg_epoch = i.cur_epoch) := by
  have h1 : ¬ (i.src_is_mon = false ∧ i.caps_allow = false) := by
    rcases hcaps with h | h <;> simp [h]
  unfold dispatch_paxos
  rw [if_neg h1]
  refine ⟨fun hlt => by rw [if_pos hlt], fun hlt => ?_, ?_⟩
  · rw [if_neg (by omega), if_pos (by omega)]
  · constructor
    · intro he
      by_cases ha : i.cur_epoch < i.msg_epoch
      · rw [if_pos ha] at he
        exact absurd he (by decide)
      · rw [if_neg ha] at he
        by_cases hb : i.msg_epoch ≠ i.cur_epoch
        · rw [if_pos hb] at he
          exact absurd he (by decide)
        · omega
    · intro he
      rw [if_neg (by omega), if_neg (by omega)]

/-- Witness for C8 at the three epoch relations. -/
theorem dispatch_paxos_epoch_spec_witness :
    (3 < 4 → dispatch_paxos ⟨true, true, 4, 3⟩ = PaxosDispatchResult.bootstrapped) ∧
    (4 < 3 → dispatch_paxos ⟨true, true, 4, 3⟩ = PaxosDispatchResult.droppedSilently) ∧
    (dispatch_paxos ⟨true, true, 4, 3⟩ = PaxosDispatchResult.delivered ↔ 4 = 3) :=
  dispatch_paxos_epoch_spec ⟨true, true, 4, 3⟩ (Or.inl rfl)

end CephMon
